import Mathlib

/-!
Shallow embedding of vnpy_datamanager (src/vnpy_datamanager/engine.py) and
proofs about its specified behaviour.

Modelling conventions:
- Python datetime objects become the DateTime structure below; a naive
  datetime has tz = none, a timezone-aware one carries the zone name.
- Numeric values parsed by float(...) are modelled as rationals; the exact
  decimal rendering of floats is not load-bearing for any claim.
- Collaborators (database, datafeed, main engine, stdlib parsers) are
  passed as explicit function parameters; each engine method becomes a
  pure function that also returns the list of effects it performed
  (requests issued, batches saved, lines written).
- Python exceptions become the PyError inductive carried by Except.
-/

namespace DataManager

/-- Embedding of Python datetime: wall-clock fields plus an optional
attached timezone name (none models a naive datetime). -/
structure DateTime where
  year : Nat
  month : Nat
  day : Nat
  hour : Nat
  minute : Nat
  second : Nat
  microsecond : Nat
  tz : Option String := none
deriving DecidableEq, Repr

/-- Embedding of the vnpy Exchange enum: only its string value is used by
the engine (exchange.value). -/
structure Exchange where
  value : String
deriving DecidableEq, Repr

/-- Embedding of the vnpy Interval enum. -/
inductive Interval where
  | minute
  | hour
  | daily
  | weekly
  | tick
deriving DecidableEq, Repr

/-- The string value of each Interval member, as in vnpy.trader.constant. -/
def Interval.value : Interval → String
  | .minute => "1m"
  | .hour => "1h"
  | .daily => "d"
  | .weekly => "w"
  | .tick => "tick"

/-- Embedding of the Interval(str) enum constructor: some member whose
value matches, none models the ValueError raised on an unknown value. -/
def Interval.ofString (s : String) : Option Interval :=
  if s = "1m" then some .minute
  else if s = "1h" then some .hour
  else if s = "d" then some .daily
  else if s = "w" then some .weekly
  else if s = "tick" then some .tick
  else none

/-- Python exceptions that the embedded code can raise. -/
inductive PyError where
  | keyError (key : String)
  | valueError
  | unboundLocal (name : String)
deriving DecidableEq, Repr

/-- Embedding of vnpy BarData as constructed by the engine. -/
structure BarData where
  symbol : String
  exchange : Exchange
  datetime : DateTime
  interval : Interval
  volume : Rat
  open_price : Rat
  high_price : Rat
  low_price : Rat
  close_price : Rat
  turnover : Rat
  open_interest : Rat
  gateway_name : String
deriving DecidableEq, Repr

/-- Embedding of vnpy TickData, restricted to the fields the exporter
reads. localtime is optional, matching the Python field that may be None. -/
structure TickData where
  symbol : String
  exchange : Exchange
  datetime : DateTime
  open_price : Rat
  high_price : Rat
  low_price : Rat
  pre_close : Rat
  volume : Rat
  turnover : Rat
  open_interest : Rat
  last_price : Rat
  last_volume : Rat
  limit_up : Rat
  limit_down : Rat
  bid_price_1 : Rat
  bid_price_2 : Rat
  bid_price_3 : Rat
  bid_price_4 : Rat
  bid_price_5 : Rat
  ask_price_1 : Rat
  ask_price_2 : Rat
  ask_price_3 : Rat
  ask_price_4 : Rat
  ask_price_5 : Rat
  bid_volume_1 : Rat
  bid_volume_2 : Rat
  bid_volume_3 : Rat
  bid_volume_4 : Rat
  bid_volume_5 : Rat
  ask_volume_1 : Rat
  ask_volume_2 : Rat
  ask_volume_3 : Rat
  ask_volume_4 : Rat
  ask_volume_5 : Rat
  localtime : Option DateTime

/-- Embedding of vnpy HistoryRequest (end field renamed end_, a Lean
keyword). For tick requests the interval is left at its None default. -/
structure HistoryRequest where
  symbol : String
  exchange : Exchange
  interval : Option Interval
  start : DateTime
  end_ : DateTime
deriving DecidableEq, Repr

/-- Embedding of vnpy TickOverview (per-instrument tick coverage). -/
structure TickOverview where
  symbol : String
  exchange : Exchange
  count : Nat
  start : DateTime
  end_ : DateTime
deriving DecidableEq, Repr

/-- Embedding of the contract data the routing in download_bar_data
consults: gateway_name and the history_data capability flag. -/
structure ContractData where
  gateway_name : String
  history_data : Bool
deriving DecidableEq, Repr

/-! ## CSV import (ManagerEngine.import_data_from_csv, engine.py lines 31-96) -/

/-- One data row as produced by csv.DictReader: header name to cell text. -/
abbrev Row : Type := List (String × String)

/-- Dictionary lookup in a row: first binding of the key, if any. -/
def lookupField (item : List (String × String)) (key : String) : Option String :=
  (item.find? (fun p => p.1 = key)).map (fun p => p.2)

/-- Embedding of item[key]: the value, or a KeyError when absent. -/
def getKey (item : Row) (key : String) : Except PyError String :=
  match lookupField item key with
  | some v => Except.ok v
  | none => Except.error (PyError.keyError key)

/-- The stdlib parsers the import calls, supplied by the caller of the
embedding: datetime.strptime (value, format), datetime.fromisoformat, and
float for numeric cells. A none result models the ValueError each raises
on unparsable input. -/
structure Parsers where
  strptime : String → String → Option DateTime
  fromisoformat : String → Option DateTime
  parseFloat : String → Option Rat

/-- The per-call configuration of import_data_from_csv: instrument
identity, timezone name, column-header mapping and optional explicit
datetime format, mirroring the Python parameter list. -/
structure ImportConfig where
  symbol : String
  exchange : Exchange
  interval : Interval
  tz_name : String
  datetime_head : String
  open_head : String
  high_head : String
  low_head : String
  close_head : String
  volume_head : String
  turnover_head : String
  open_interest_head : String
  datetime_format : String

/-- Embedding of pytz tz.localize(dt): attaches the zone to a naive
datetime keeping every wall-clock field; raises (none) on an aware input,
as pytz does. No offset arithmetic is performed. -/
def localize (name : String) (dt : DateTime) : Option DateTime :=
  match dt.tz with
  | some _ => none
  | none => some { dt with tz := some name }

/-- localize lifted into Except: a ValueError on an aware datetime. -/
def localizeE (name : String) (dt : DateTime) : Except PyError DateTime :=
  match localize name dt with
  | some d => Except.ok d
  | none => Except.error PyError.valueError

/-- Embedding of float(s) on a cell: ValueError when unparsable. -/
def parseFloatE (P : Parsers) (s : String) : Except PyError Rat :=
  match P.parseFloat s with
  | some q => Except.ok q
  | none => Except.error PyError.valueError

/-- float(item[key]): KeyError when the column is absent, then float. -/
def getFloat (P : Parsers) (item : Row) (key : String) : Except PyError Rat := do
  let s ← getKey item key
  parseFloatE P s

/-- Engine.py lines 60-64: read the datetime cell and parse it with
strptime when an explicit format was supplied (a non-empty string is
truthy in Python), otherwise with fromisoformat. The result is naive or
carries whatever zone the parser attached. -/
def rowNaiveDT (P : Parsers) (cfg : ImportConfig) (item : Row) : Except PyError DateTime :=
  match getKey item cfg.datetime_head with
  | Except.error e => Except.error e
  | Except.ok s =>
    match (if cfg.datetime_format = "" then P.fromisoformat s else P.strptime s cfg.datetime_format) with
    | some dt => Except.ok dt
    | none => Except.error PyError.valueError

/-- Engine.py lines 66-82: the numeric cells of one row, in the Python
evaluation order (volume, open, high, low, close, then turnover and
open_interest which default to "0" when their header is absent). -/
def rowFloats (P : Parsers) (cfg : ImportConfig) (item : Row) :
    Except PyError (Rat × Rat × Rat × Rat × Rat × Rat × Rat) := do
  let turnoverStr := (lookupField item cfg.turnover_head).getD "0"
  let openInterestStr := (lookupField item cfg.open_interest_head).getD "0"
  let vol ← getFloat P item cfg.volume_head
  let o ← getFloat P item cfg.open_head
  let hi ← getFloat P item cfg.high_head
  let lo ← getFloat P item cfg.low_head
  let cl ← getFloat P item cfg.close_head
  let tv ← parseFloatE P turnoverStr
  let oi ← parseFloatE P openInterestStr
  Except.ok (vol, o, hi, lo, cl, tv, oi)

/-- Engine.py lines 59-84: build the BarData for one csv row, or the
first exception raised while doing so. -/
def parseRow (P : Parsers) (cfg : ImportConfig) (item : Row) : Except PyError BarData :=
  match rowNaiveDT P cfg item with
  | Except.error e => Except.error e
  | Except.ok dtn =>
    match localizeE cfg.tz_name dtn with
    | Except.error e => Except.error e
    | Except.ok dtl =>
      match rowFloats P cfg item with
      | Except.error e => Except.error e
      | Except.ok fs =>
        Except.ok
          { symbol := cfg.symbol
            exchange := cfg.exchange
            datetime := dtl
            interval := cfg.interval
            volume := fs.1
            open_price := fs.2.1
            high_price := fs.2.2.1
            low_price := fs.2.2.2.1
            close_price := fs.2.2.2.2.1
            turnover := fs.2.2.2.2.2.1
            open_interest := fs.2.2.2.2.2.2
            gateway_name := "DB" }

/-- The import loop (engine.py lines 59-87): bars accumulated in file
order; the first row-level exception aborts the whole loop. -/
def parseRows (P : Parsers) (cfg : ImportConfig) : List Row → Except PyError (List BarData)
  | [] => Except.ok []
  | r :: rs =>
    match parseRow P cfg r with
    | Except.error e => Except.error e
    | Except.ok b =>
      match parseRows P cfg rs with
      | Except.error e => Except.error e
      | Except.ok bs => Except.ok (b :: bs)

/-- Embedding of ManagerEngine.import_data_from_csv on the rows produced
by the csv reader. First component: the returned (start, end, count)
triple or the exception that propagated; second component: the batches
passed to database.save_bar_data (the store effect). Line 91 reads the
loop variable bar after the loop: on a file with zero data rows that
variable was never assigned, which is the UnboundLocalError case; the
batch write on line 94 is therefore never reached on any error path. -/
def import_data_from_csv (P : Parsers) (cfg : ImportConfig) (rows : List Row) :
    Except PyError (Option DateTime × DateTime × Nat) × List (List BarData) :=
  match parseRows P cfg rows with
  | Except.error e => (Except.error e, [])
  | Except.ok bars =>
    match bars.getLast? with
    | none => (Except.error (PyError.unboundLocal "bar"), [])
    | some lastBar =>
      (Except.ok (bars.head?.map (fun b => b.datetime), lastBar.datetime, bars.length), [bars])

/-! ## Downloads (ManagerEngine.download_bar_data / download_tick_data,
engine.py lines 305-363) -/

/-- Observable outcome of download_tick_data: the HistoryRequests issued
to datafeed.query_tick_history, the batches passed to
database.save_tick_data, and the returned count. -/
structure TickDownloadResult where
  requests : List HistoryRequest
  saved : List (List TickData)
  ret : Nat

/-- Embedding of ManagerEngine.download_tick_data (engine.py lines
341-363): builds one HistoryRequest from start to now (no interval),
queries the datafeed once, saves the result iff it is non-empty and
returns its length (0 otherwise). An empty query result also covers the
Python None case, both being falsy. -/
def download_tick_data (query_tick_history : HistoryRequest → List TickData)
    (symbol : String) (exchange : Exchange) (start now : DateTime) : TickDownloadResult :=
  let req : HistoryRequest :=
    { symbol := symbol, exchange := exchange, interval := none, start := start, end_ := now }
  let data := query_tick_history req
  if data.isEmpty then
    { requests := [req], saved := [], ret := 0 }
  else
    { requests := [req], saved := [data], ret := data.length }

/-- Observable outcome of download_bar_data: requests routed to the live
gateway (with the gateway name used), requests routed to the datafeed,
batches passed to save_bar_data, and the returned count. -/
structure BarDownloadResult where
  gateway_requests : List (HistoryRequest × String)
  feed_requests : List HistoryRequest
  saved : List (List BarData)
  ret : Nat
deriving DecidableEq, Repr

/-- Embedding of ManagerEngine.download_bar_data (engine.py lines
305-339): converts the interval string (ValueError on an unknown value),
builds one HistoryRequest from start to now, routes it to the gateway
when a contract is registered for symbol.exchange and advertises
history_data, otherwise to the datafeed, then saves a non-empty result in
one batch and returns its length (0 for an empty result, no save). -/
def download_bar_data (get_contract : String → Option ContractData)
    (query_history : HistoryRequest → String → List BarData)
    (query_bar_history : HistoryRequest → List BarData)
    (symbol : String) (exchange : Exchange) (interval : String) (start now : DateTime) :
    Except PyError BarDownloadResult :=
  match Interval.ofString interval with
  | none => Except.error PyError.valueError
  | some iv =>
    let req : HistoryRequest :=
      { symbol := symbol, exchange := exchange, interval := some iv, start := start, end_ := now }
    let vt_symbol := symbol ++ "." ++ exchange.value
    let routed : List BarData × List (HistoryRequest × String) × List HistoryRequest :=
      match get_contract vt_symbol with
      | some contract =>
        if contract.history_data then
          (query_history req contract.gateway_name, [(req, contract.gateway_name)], [])
        else
          (query_bar_history req, [], [req])
      | none => (query_bar_history req, [], [req])
    if routed.1.isEmpty then
      Except.ok { gateway_requests := routed.2.1, feed_requests := routed.2.2, saved := [], ret := 0 }
    else
      Except.ok { gateway_requests := routed.2.1, feed_requests := routed.2.2,
                  saved := [routed.1], ret := routed.1.length }

/-! ## Overview reporting (ManagerEngine.get_tick_overview, engine.py
lines 234-239) -/

/-- Embedding of ManagerEngine.get_tick_overview: the hasattr check on
the database becomes an Option holding the get_tick_overview method when
the store exposes it; absent capability yields an empty list. -/
def get_tick_overview (database_get_tick_overview : Option (Unit → List TickOverview)) :
    List TickOverview :=
  match database_get_tick_overview with
  | some f => f ()
  | none => []

/-! ## CSV export (ManagerEngine.output_data_to_csv, engine.py lines 98-228) -/

/-- The fieldnames list selected for tick data (engine.py lines 111-147),
in source order. -/
def tick_fieldnames : List String :=
  ["symbol", "exchange", "datetime",
   "open", "high", "low", "pre_close",
   "volume", "turnover", "open_interest",
   "last_price", "last_volume",
   "limit_up", "limit_down",
   "bid_price_1", "bid_price_2", "bid_price_3", "bid_price_4", "bid_price_5",
   "ask_price_1", "ask_price_2", "ask_price_3", "ask_price_4", "ask_price_5",
   "bid_volume_1", "bid_volume_2", "bid_volume_3", "bid_volume_4", "bid_volume_5",
   "ask_volume_1", "ask_volume_2", "ask_volume_3", "ask_volume_4", "ask_volume_5",
   "localtime"]

/-- The fieldnames list selected for bar data (engine.py lines 151-162). -/
def bar_fieldnames : List String :=
  ["symbol", "exchange", "datetime",
   "open", "high", "low", "close",
   "volume", "turnover", "open_interest"]

/-- Left-pad a number with zeros to the given width, as strftime does. -/
def padZeros (width : Nat) (n : Nat) : String :=
  let s := toString n
  String.mk (List.replicate (width - s.length) '0') ++ s

/-- strftime with format "%Y-%m-%d %H:%M:%S", used for bar datetimes. -/
def strftime_sec (dt : DateTime) : String :=
  padZeros 4 dt.year ++ "-" ++ padZeros 2 dt.month ++ "-" ++ padZeros 2 dt.day ++ " " ++
    padZeros 2 dt.hour ++ ":" ++ padZeros 2 dt.minute ++ ":" ++ padZeros 2 dt.second

/-- strftime with format "%Y-%m-%d %H:%M:%S.%f", used for tick datetimes
and localtime. -/
def strftime_micro (dt : DateTime) : String :=
  strftime_sec dt ++ "." ++ padZeros 6 dt.microsecond

/-- Stand-in for the Python str() rendering of numeric cells; the exact
decimal text is not load-bearing for any claim. -/
def ratStr (q : Rat) : String :=
  toString q

/-- The per-tick dictionary built on engine.py lines 171-208, including
the conditionally added localtime entry (a datetime is always truthy in
Python, so the entry is present exactly when localtime is not None). -/
def tickRowDict (t : TickData) : List (String × String) :=
  [("symbol", t.symbol),
   ("exchange", t.exchange.value),
   ("datetime", strftime_micro t.datetime),
   ("open", ratStr t.open_price),
   ("high", ratStr t.high_price),
   ("low", ratStr t.low_price),
   ("pre_close", ratStr t.pre_close),
   ("turnover", ratStr t.turnover),
   ("volume", ratStr t.volume),
   ("open_interest", ratStr t.open_interest),
   ("last_price", ratStr t.last_price),
   ("last_volume", ratStr t.last_volume),
   ("limit_up", ratStr t.limit_up),
   ("limit_down", ratStr t.limit_down),
   ("bid_price_1", ratStr t.bid_price_1),
   ("bid_price_2", ratStr t.bid_price_2),
   ("bid_price_3", ratStr t.bid_price_3),
   ("bid_price_4", ratStr t.bid_price_4),
   ("bid_price_5", ratStr t.bid_price_5),
   ("ask_price_1", ratStr t.ask_price_1),
   ("ask_price_2", ratStr t.ask_price_2),
   ("ask_price_3", ratStr t.ask_price_3),
   ("ask_price_4", ratStr t.ask_price_4),
   ("ask_price_5", ratStr t.ask_price_5),
   ("bid_volume_1", ratStr t.bid_volume_1),
   ("bid_volume_2", ratStr t.bid_volume_2),
   ("bid_volume_3", ratStr t.bid_volume_3),
   ("bid_volume_4", ratStr t.bid_volume_4),
   ("bid_volume_5", ratStr t.bid_volume_5),
   ("ask_volume_1", ratStr t.ask_volume_1),
   ("ask_volume_2", ratStr t.ask_volume_2),
   ("ask_volume_3", ratStr t.ask_volume_3),
   ("ask_volume_4", ratStr t.ask_volume_4),
   ("ask_volume_5", ratStr t.ask_volume_5)] ++
  (match t.localtime with
   | some lt => [("localtime", strftime_micro lt)]
   | none => [])

/-- The per-bar dictionary built on engine.py lines 212-223. -/
def barRowDict (b : BarData) : List (String × String) :=
  [("symbol", b.symbol),
   ("exchange", b.exchange.value),
   ("datetime", strftime_sec b.datetime),
   ("open", ratStr b.open_price),
   ("high", ratStr b.high_price),
   ("low", ratStr b.low_price),
   ("close", ratStr b.close_price),
   ("turnover", ratStr b.turnover),
   ("volume", ratStr b.volume),
   ("open_interest", ratStr b.open_interest)]

/-- csv.DictWriter.writerow: one output line with the cells in fieldnames
order; a key absent from the dictionary is written as the default restval,
the empty string. Cell quoting is not modelled (no cell written by this
program contains the delimiter). -/
def writerow (fieldnames : List String) (d : List (String × String)) : String :=
  String.intercalate "," (fieldnames.map (fun f => (lookupField d f).getD ""))

/-- Outcome of the file-writing phase inside the try block (engine.py
lines 164-228): success, the PermissionError the code catches, or any
other exception, which the code does not catch. -/
inductive WriteOutcome where
  | ok
  | permissionError
  | otherError (msg : String)
deriving DecidableEq, Repr

/-- Embedding of ManagerEngine.output_data_to_csv. The store loads are
function parameters (load happens before the try block, so its failures
always propagate and are outside this model). On a successful write the
produced file is the header line followed by one line per record in store
order; a PermissionError is caught and turned into the return value
False with nothing durably written; any other exception propagates
(Except.error). Returns the boolean result paired with the written
lines. -/
def output_data_to_csv
    (load_bar_data : String → Exchange → Interval → DateTime → DateTime → List BarData)
    (load_tick_data : String → Exchange → DateTime → DateTime → List TickData)
    (outcome : WriteOutcome)
    (symbol : String) (exchange : Exchange) (interval : Interval) (start end_ : DateTime) :
    Except String (Bool × List String) :=
  let fieldnames := if interval = Interval.tick then tick_fieldnames else bar_fieldnames
  let rows :=
    if interval = Interval.tick then
      (load_tick_data symbol exchange start end_).map (fun t => writerow tick_fieldnames (tickRowDict t))
    else
      (load_bar_data symbol exchange interval start end_).map (fun b => writerow bar_fieldnames (barRowDict b))
  match outcome with
  | WriteOutcome.ok => Except.ok (true, String.intercalate "," fieldnames :: rows)
  | WriteOutcome.permissionError => Except.ok (false, [])
  | WriteOutcome.otherError msg => Except.error msg

/-! ## Statement helpers and concrete sample inputs used by witnesses -/

/-- The single HistoryRequest that download_bar_data builds. -/
def bar_request (symbol : String) (exchange : Exchange) (iv : Interval)
    (start now : DateTime) : HistoryRequest :=
  { symbol := symbol, exchange := exchange, interval := some iv, start := start, end_ := now }

/-- The save_bar_data batches produced from one query result: a single
batch when non-empty, nothing when empty. -/
def routed_save (data : List BarData) : List (List BarData) :=
  if data.isEmpty then [] else [data]

/-- A concrete naive timestamp, 2024-01-02 03:04:05. -/
def sampleDT1 : DateTime :=
  { year := 2024, month := 1, day := 2, hour := 3, minute := 4, second := 5, microsecond := 0 }

/-- A concrete naive timestamp one day later, 2024-01-03 03:04:05. -/
def sampleDT2 : DateTime :=
  { year := 2024, month := 1, day := 3, hour := 3, minute := 4, second := 5, microsecond := 0 }

/-- Start of a concrete 25-day download range, 2024-01-01 00:00:00. -/
def tickStart : DateTime :=
  { year := 2024, month := 1, day := 1, hour := 0, minute := 0, second := 0, microsecond := 0 }

/-- The matching "now", 2024-01-26 00:00:00: 25 days after tickStart, so
a 10-day maximum window size would need three windows to cover the range. -/
def tickNow : DateTime :=
  { year := 2024, month := 1, day := 26, hour := 0, minute := 0, second := 0, microsecond := 0 }

/-- Concrete stdlib parsers over the handful of strings the sample rows
use: both datetime parsers accept the two sample timestamps, float
accepts 0, 1 and 2; everything else fails as the Python originals would. -/
def P0 : Parsers :=
  { strptime := fun s _ =>
      if s = "2024-01-02 03:04:05" then some sampleDT1
      else if s = "2024-01-03 03:04:05" then some sampleDT2
      else none
    fromisoformat := fun s =>
      if s = "2024-01-02 03:04:05" then some sampleDT1
      else if s = "2024-01-03 03:04:05" then some sampleDT2
      else none
    parseFloat := fun s =>
      if s = "0" then some 0
      else if s = "1" then some 1
      else if s = "2" then some 2
      else none }

/-- A concrete import configuration: standard headers, no explicit
datetime format (so fromisoformat is used), Asia/Shanghai localization. -/
def cfg0 : ImportConfig :=
  { symbol := "rb888"
    exchange := { value := "SHFE" }
    interval := Interval.minute
    tz_name := "Asia/Shanghai"
    datetime_head := "datetime"
    open_head := "open"
    high_head := "high"
    low_head := "low"
    close_head := "close"
    volume_head := "volume"
    turnover_head := "turnover"
    open_interest_head := "open_interest"
    datetime_format := "" }

/-- A well-formed sample row; its turnover and open_interest headers are
absent, so both default to "0". -/
def row1 : Row :=
  [("datetime", "2024-01-02 03:04:05"), ("open", "1"), ("high", "2"),
   ("low", "1"), ("close", "2"), ("volume", "1")]

/-- A second well-formed sample row, one day later in file order. -/
def row2 : Row :=
  [("datetime", "2024-01-03 03:04:05"), ("open", "1"), ("high", "2"),
   ("low", "1"), ("close", "2"), ("volume", "1")]

/-- A row whose datetime cell no parser accepts. -/
def rowBad : Row :=
  [("datetime", "not-a-date"), ("open", "1"), ("high", "2"),
   ("low", "1"), ("close", "2"), ("volume", "1")]

/-- The two-row sample file. -/
def rows0 : List Row := [row1, row2]

/-- The one-row sample file whose single row fails to parse. -/
def rowsBad : List Row := [rowBad]

/-- The BarData that importing row1 under cfg0 produces. -/
def bar1 : BarData :=
  { symbol := "rb888"
    exchange := { value := "SHFE" }
    datetime := { sampleDT1 with tz := some "Asia/Shanghai" }
    interval := Interval.minute
    volume := 1
    open_price := 1
    high_price := 2
    low_price := 1
    close_price := 2
    turnover := 0
    open_interest := 0
    gateway_name := "DB" }

/-- The BarData that importing row2 under cfg0 produces. -/
def bar2 : BarData :=
  { bar1 with datetime := { sampleDT2 with tz := some "Asia/Shanghai" } }

/-- The batch persisted for the two-row sample file. -/
def bars0 : List BarData := [bar1, bar2]

/-- A concrete contract whose gateway advertises history capability. -/
def contract0 : ContractData := { gateway_name := "CTP", history_data := true }

/-- A contract registry holding only IF888.CFFEX. -/
def gc0 : String → Option ContractData :=
  fun v => if v = "IF888.CFFEX" then some contract0 else none

/-- A gateway history query returning one bar. -/
def qg0 : HistoryRequest → String → List BarData := fun _ _ => [bar1]

/-- A datafeed bar query returning nothing. -/
def qf0 : HistoryRequest → List BarData := fun _ => []

/-! ## Helper lemmas about the import loop -/

/-- The import loop preserves the row count: a successful parse yields
exactly one BarData per row. -/
theorem parseRows_length (P : Parsers) (cfg : ImportConfig) :
    ∀ (rows : List Row) (bars : List BarData),
      parseRows P cfg rows = Except.ok bars → bars.length = rows.length := by
  intro rows
  induction rows with
  | nil =>
    intro bars h
    simp only [parseRows] at h
    cases h
    rfl
  | cons r rs ih =>
    intro bars h
    simp only [parseRows] at h
    cases hr : parseRow P cfg r with
    | error e => rw [hr] at h; cases h
    | ok b =>
      rw [hr] at h
      cases hs : parseRows P cfg rs with
      | error e => rw [hs] at h; cases h
      | ok bs =>
        rw [hs] at h
        cases h
        simp [ih bs hs]

/-- Unfolding one successful step of the import loop. -/
theorem parseRows_cons_ok (P : Parsers) (cfg : ImportConfig) (r : Row) (rs : List Row)
    (bars : List BarData) (h : parseRows P cfg (r :: rs) = Except.ok bars) :
    ∃ b bs, parseRow P cfg r = Except.ok b ∧ parseRows P cfg rs = Except.ok bs ∧
      bars = b :: bs := by
  simp only [parseRows] at h
  cases hr : parseRow P cfg r with
  | error e => rw [hr] at h; cases h
  | ok b =>
    rw [hr] at h
    cases hs : parseRows P cfg rs with
    | error e => rw [hs] at h; cases h
    | ok bs =>
      rw [hs] at h
      cases h
      exact ⟨b, bs, rfl, rfl, rfl⟩

/-- The last BarData of a successful import comes from the last row of
the file, in file order. -/
theorem parseRows_ok_last (P : Parsers) (cfg : ImportConfig) :
    ∀ (rows : List Row) (bars : List BarData) (l : BarData),
      parseRows P cfg rows = Except.ok bars → bars.getLast? = some l →
      ∃ r, rows.getLast? = some r ∧ parseRow P cfg r = Except.ok l := by
  intro rows
  induction rows with
  | nil =>
    intro bars l h hl
    simp only [parseRows] at h
    cases h
    cases hl
  | cons r rs ih =>
    intro bars l h hl
    obtain ⟨b, bs, hr, hs, rfl⟩ := parseRows_cons_ok P cfg r rs bars h
    cases rs with
    | nil =>
      simp only [parseRows] at hs
      cases hs
      simp only [List.getLast?_singleton, Option.some.injEq] at hl
      subst hl
      exact ⟨r, rfl, hr⟩
    | cons r2 rs2 =>
      obtain ⟨b2, bs2, hr2, hs2, rfl⟩ := parseRows_cons_ok P cfg r2 rs2 bs hs
      rw [List.getLast?_cons_cons] at hl
      obtain ⟨rr, hrr, hpr⟩ := ih (b2 :: bs2) l hs hl
      exact ⟨rr, by rw [List.getLast?_cons_cons]; exact hrr, hpr⟩

/-! ## The claims -/

/-- Claim C1 counterexample: over the 25-day range from tickStart to
tickNow, download_tick_data issues exactly one HistoryRequest, not the
three 10-day windowed requests the claim describes. -/
theorem download_tick_data_25day_range_not_three_requests :
    (download_tick_data (fun _ => []) "rb888" { value := "SHFE" } tickStart tickNow).requests.length = 1 ∧
    (download_tick_data (fun _ => []) "rb888" { value := "SHFE" } tickStart tickNow).requests.length ≠ 3 := by
  constructor
  · rfl
  · decide

/-- Claim C1 (amended): download_tick_data performs no windowing: it
issues exactly one HistoryRequest spanning the whole range from start to
now (with no interval), persists a non-empty result immediately as one
save_tick_data batch, and returns the total count saved: the length of
the single batch, or 0 for an empty result with nothing persisted. -/
theorem download_tick_data_single_unwindowed_request
    (query : HistoryRequest → List TickData) (symbol : String) (exchange : Exchange)
    (start now : DateTime) :
    (download_tick_data query symbol exchange start now).requests =
      [{ symbol := symbol, exchange := exchange, interval := none, start := start, end_ := now }] ∧
    (download_tick_data query symbol exchange start now).ret =
      (((download_tick_data query symbol exchange start now).saved.map List.length).sum) ∧
    (download_tick_data query symbol exchange start now).saved =
      (if (query { symbol := symbol, exchange := exchange, interval := none, start := start, end_ := now }).isEmpty
       then []
       else [query { symbol := symbol, exchange := exchange, interval := none, start := start, end_ := now }]) := by
  unfold download_tick_data
  by_cases h :
      (query { symbol := symbol, exchange := exchange, interval := none, start := start, end_ := now }).isEmpty <;>
    simp [h]

/-- Claim C2 (the code violates it): on a csv file with zero data rows
the code reaches line 91 (end = bar.datetime) with the loop variable bar
never assigned, so the call raises UnboundLocalError instead of
returning a defined zero-count sentinel; no batch reaches the store. -/
theorem import_data_from_csv_empty_file_unbound_local (P : Parsers) (cfg : ImportConfig) :
    import_data_from_csv P cfg [] = (Except.error (PyError.unboundLocal "bar"), []) := rfl

/-- Claim C6: a PermissionError during the write is caught and reported
as the return value False without raising, while any other write-phase
failure propagates to the caller unchanged. -/
theorem output_data_to_csv_permission_vs_other
    (lb : String → Exchange → Interval → DateTime → DateTime → List BarData)
    (lt : String → Exchange → DateTime → DateTime → List TickData)
    (symbol : String) (exchange : Exchange) (interval : Interval)
    (start end_ : DateTime) (msg : String) :
    output_data_to_csv lb lt WriteOutcome.permissionError symbol exchange interval start end_ =
      Except.ok (false, []) ∧
    output_data_to_csv lb lt (WriteOutcome.otherError msg) symbol exchange interval start end_ =
      Except.error msg ∧
    output_data_to_csv lb lt WriteOutcome.ok symbol exchange interval start end_ =
      Except.ok (true,
        String.intercalate "," (if interval = Interval.tick then tick_fieldnames else bar_fieldnames) ::
        (if interval = Interval.tick
         then (lt symbol exchange start end_).map (fun t => writerow tick_fieldnames (tickRowDict t))
         else (lb symbol exchange interval start end_).map (fun b => writerow bar_fieldnames (barRowDict b)))) :=
  ⟨rfl, rfl, rfl⟩

/-- Claim C9: get_tick_overview returns the coverage reported by the
store when the store exposes the optional capability, and an empty list
without failing when it does not. -/
theorem get_tick_overview_optional_capability (f : Unit → List TickOverview) :
    get_tick_overview (some f) = f () ∧ get_tick_overview none = [] :=
  ⟨rfl, rfl⟩

/-- Claim C10: when the store returns no records for the requested range
the export still succeeds: it returns True and the file holds exactly
the header row and no data rows. -/
theorem output_data_to_csv_empty_range_header_only
    (lb : String → Exchange → Interval → DateTime → DateTime → List BarData)
    (lt : String → Exchange → DateTime → DateTime → List TickData)
    (symbol : String) (exchange : Exchange) (interval : Interval) (start end_ : DateTime)
    (hb : lb symbol exchange interval start end_ = [])
    (ht : lt symbol exchange start end_ = []) :
    output_data_to_csv lb lt WriteOutcome.ok symbol exchange interval start end_ =
      Except.ok (true,
        [String.intercalate "," (if interval = Interval.tick then tick_fieldnames else bar_fieldnames)]) := by
  unfold output_data_to_csv
  by_cases h : interval = Interval.tick <;> simp [h, hb, ht]

/-- Witness for claim C10 at concrete inputs: a store with no bar data
in the range, a daily export, the file is just the bar header. -/
theorem output_data_to_csv_empty_range_header_only_witness :
    output_data_to_csv (fun _ _ _ _ _ => []) (fun _ _ _ _ => []) WriteOutcome.ok "rb888"
      { value := "SHFE" } Interval.daily tickStart tickNow =
      Except.ok (true,
        [String.intercalate "," (if Interval.daily = Interval.tick then tick_fieldnames else bar_fieldnames)]) :=
  output_data_to_csv_empty_range_header_only (fun _ _ _ _ _ => []) (fun _ _ _ _ => [])
    "rb888" { value := "SHFE" } Interval.daily tickStart tickNow rfl rfl

/-- Claim C3: for a well-formed csv file with at least one data row, the
importer returns the first bar timestamp as start, the last bar timestamp
(in file order, no sorting) as end, the row count, and persists exactly
one batch holding one BarData per row; the first and last bars are the
parses of the first and last file rows respectively. -/
theorem import_data_from_csv_success
    (P : Parsers) (cfg : ImportConfig) (rows : List Row) (bars : List BarData)
    (b l : BarData)
    (h : parseRows P cfg rows = Except.ok bars)
    (hb : bars.head? = some b) (hl : bars.getLast? = some l) :
    import_data_from_csv P cfg rows =
      (Except.ok (some b.datetime, l.datetime, rows.length), [bars]) ∧
    bars.length = rows.length ∧
    rows.head?.map (parseRow P cfg) = some (Except.ok b) ∧
    rows.getLast?.map (parseRow P cfg) = some (Except.ok l) := by
  have hlen := parseRows_length P cfg rows bars h
  refine ⟨?_, hlen, ?_, ?_⟩
  · unfold import_data_from_csv
    rw [h]
    simp only [hl, hb, Option.map_some]
    rw [hlen]
    rfl
  · cases rows with
    | nil =>
      simp only [parseRows] at h
      cases h
      cases hb
    | cons r rs =>
      obtain ⟨b0, bs, hr, _, rfl⟩ := parseRows_cons_ok P cfg r rs bars h
      simp only [List.head?_cons, Option.some.injEq] at hb
      subst hb
      simp [hr]
  · obtain ⟨r, hrr, hpr⟩ := parseRows_ok_last P cfg rows bars l h hl
    simp [hrr, hpr]

/-- Witness for claim C3 at the concrete two-row sample file. -/
theorem import_data_from_csv_success_witness :
    import_data_from_csv P0 cfg0 rows0 =
      (Except.ok (some bar1.datetime, bar2.datetime, rows0.length), [bars0]) ∧
    bars0.length = rows0.length ∧
    rows0.head?.map (parseRow P0 cfg0) = some (Except.ok bar1) ∧
    rows0.getLast?.map (parseRow P0 cfg0) = some (Except.ok bar2) :=
  import_data_from_csv_success P0 cfg0 rows0 bars0 bar1 bar2 (by rfl) (by rfl) (by rfl)

/-- Claim C4: when any row fails to parse, the import propagates that
failure and the store is untouched: the single batch write comes after
the whole file has been consumed, so no batch was saved. -/
theorem import_data_from_csv_parse_failure_no_save
    (P : Parsers) (cfg : ImportConfig) (rows : List Row) (e : PyError)
    (h : parseRows P cfg rows = Except.error e) :
    import_data_from_csv P cfg rows = (Except.error e, []) := by
  unfold import_data_from_csv
  rw [h]

/-- Witness for claim C4 at a concrete file whose only row has an
unparsable datetime cell. -/
theorem import_data_from_csv_parse_failure_no_save_witness :
    import_data_from_csv P0 cfg0 rowsBad = (Except.error PyError.valueError, []) :=
  import_data_from_csv_parse_failure_no_save P0 cfg0 rowsBad PyError.valueError (by rfl)

/-- Claim C5 counterexample: the tick export header has 35 columns, not
34 - the 14 scalar fields plus the four 5-level ladders plus localtime -
and that header is exactly what a tick export writes. -/
theorem tick_export_header_has_35_columns :
    tick_fieldnames.length ≠ 34 ∧
    tick_fieldnames.length = 35 ∧
    output_data_to_csv (fun _ _ _ _ _ => []) (fun _ _ _ _ => []) WriteOutcome.ok "rb888"
      { value := "SHFE" } Interval.tick tickStart tickNow =
      Except.ok (true, [String.intercalate "," tick_fieldnames]) :=
  ⟨by decide, by decide, rfl⟩

/-- Claim C5 (amended): the export column layout is fixed by the
interval: tick data is written with the 35-column header (including the
5-level bid/ask ladders and the optional localtime column) and its
datetimes use format %Y-%m-%d %H:%M:%S.%f; every other interval writes
the 10-column bar header symbol, exchange, datetime, open, high, low,
close, volume, turnover, open_interest, with datetimes in
%Y-%m-%d %H:%M:%S. -/
theorem output_data_to_csv_fixed_layout
    (lb : String → Exchange → Interval → DateTime → DateTime → List BarData)
    (lt : String → Exchange → DateTime → DateTime → List TickData)
    (symbol : String) (exchange : Exchange) (start end_ : DateTime) :
    tick_fieldnames.length = 35 ∧
    bar_fieldnames =
      ["symbol", "exchange", "datetime", "open", "high", "low", "close",
       "volume", "turnover", "open_interest"] ∧
    output_data_to_csv lb lt WriteOutcome.ok symbol exchange Interval.tick start end_ =
      Except.ok (true, String.intercalate "," tick_fieldnames ::
        (lt symbol exchange start end_).map (fun t => writerow tick_fieldnames (tickRowDict t))) ∧
    output_data_to_csv lb lt WriteOutcome.ok symbol exchange Interval.minute start end_ =
      Except.ok (true, String.intercalate "," bar_fieldnames ::
        (lb symbol exchange Interval.minute start end_).map (fun b => writerow bar_fieldnames (barRowDict b))) ∧
    output_data_to_csv lb lt WriteOutcome.ok symbol exchange Interval.hour start end_ =
      Except.ok (true, String.intercalate "," bar_fieldnames ::
        (lb symbol exchange Interval.hour start end_).map (fun b => writerow bar_fieldnames (barRowDict b))) ∧
    output_data_to_csv lb lt WriteOutcome.ok symbol exchange Interval.daily start end_ =
      Except.ok (true, String.intercalate "," bar_fieldnames ::
        (lb symbol exchange Interval.daily start end_).map (fun b => writerow bar_fieldnames (barRowDict b))) ∧
    output_data_to_csv lb lt WriteOutcome.ok symbol exchange Interval.weekly start end_ =
      Except.ok (true, String.intercalate "," bar_fieldnames ::
        (lb symbol exchange Interval.weekly start end_).map (fun b => writerow bar_fieldnames (barRowDict b))) ∧
    (∀ t : TickData, lookupField (tickRowDict t) "datetime" = some (strftime_micro t.datetime)) ∧
    (∀ b : BarData, lookupField (barRowDict b) "datetime" = some (strftime_sec b.datetime)) ∧
    strftime_sec { year := 2024, month := 1, day := 2, hour := 3, minute := 4, second := 5,
                   microsecond := 6 } = "2024-01-02 03:04:05" ∧
    strftime_micro { year := 2024, month := 1, day := 2, hour := 3, minute := 4, second := 5,
                     microsecond := 6 } = "2024-01-02 03:04:05.000006" :=
  ⟨by decide, by decide, rfl, rfl, rfl, rfl, rfl, fun t => rfl, fun b => rfl, by decide, by decide⟩

/-- Claim C7: download_bar_data issues exactly one HistoryRequest
spanning the range from start to now; it goes to the live gateway when a
contract is registered under symbol.exchange and advertises
history_data, otherwise to the datafeed; a non-empty result is persisted
in one save_bar_data batch and its length returned, while an empty
result returns 0 with nothing persisted. -/
theorem download_bar_data_single_routed_request
    (gc : String → Option ContractData)
    (qg : HistoryRequest → String → List BarData)
    (qf : HistoryRequest → List BarData)
    (symbol : String) (exchange : Exchange) (ivs : String) (iv : Interval)
    (copt : Option ContractData) (start now : DateTime)
    (hiv : Interval.ofString ivs = some iv)
    (hgc : gc (symbol ++ "." ++ exchange.value) = copt) :
    download_bar_data gc qg qf symbol exchange ivs start now =
      Except.ok (match copt with
        | some c =>
          if c.history_data then
            { gateway_requests := [(bar_request symbol exchange iv start now, c.gateway_name)]
              feed_requests := []
              saved := routed_save (qg (bar_request symbol exchange iv start now) c.gateway_name)
              ret := (qg (bar_request symbol exchange iv start now) c.gateway_name).length }
          else
            { gateway_requests := []
              feed_requests := [bar_request symbol exchange iv start now]
              saved := routed_save (qf (bar_request symbol exchange iv start now))
              ret := (qf (bar_request symbol exchange iv start now)).length }
        | none =>
            { gateway_requests := []
              feed_requests := [bar_request symbol exchange iv start now]
              saved := routed_save (qf (bar_request symbol exchange iv start now))
              ret := (qf (bar_request symbol exchange iv start now)).length }) := by
  unfold download_bar_data
  rw [hiv]
  simp only [bar_request, routed_save]
  cases copt with
  | none =>
    by_cases h :
        qf { symbol := symbol, exchange := exchange, interval := some iv, start := start, end_ := now } = [] <;>
      simp [hgc, List.isEmpty_iff, h]
  | some c =>
    cases hcd : c.history_data with
    | true =>
      by_cases h :
          qg { symbol := symbol, exchange := exchange, interval := some iv, start := start, end_ := now }
            c.gateway_name = [] <;>
        simp [hgc, hcd, List.isEmpty_iff, h]
    | false =>
      by_cases h :
          qf { symbol := symbol, exchange := exchange, interval := some iv, start := start, end_ := now } = [] <;>
        simp [hgc, hcd, List.isEmpty_iff, h]

/-- Witness for claim C7 at concrete inputs: the registered IF888.CFFEX
contract advertises history, so the request goes to its gateway and the
one returned bar is saved in one batch with count 1. -/
theorem download_bar_data_single_routed_request_witness :
    download_bar_data gc0 qg0 qf0 "IF888" { value := "CFFEX" } "1m" tickStart tickNow =
      Except.ok
        { gateway_requests :=
            [(bar_request "IF888" { value := "CFFEX" } Interval.minute tickStart tickNow, "CTP")]
          feed_requests := []
          saved := [[bar1]]
          ret := 1 } :=
  download_bar_data_single_routed_request gc0 qg0 qf0 "IF888" { value := "CFFEX" } "1m"
    Interval.minute (some contract0) tickStart tickNow (by rfl) (by rfl)

/-- Claim C8: for every successfully parsed import row the attached
timezone is a wall-clock-preserving localization: the naive parse result
equals the final timestamp with its zone stripped (identical year,
month, day, hour, minute, second and microsecond), and the final zone is
exactly the target timezone name; no offset arithmetic happens. -/
theorem parseRow_wall_clock_localization
    (P : Parsers) (cfg : ImportConfig) (item : Row) (b : BarData)
    (h : parseRow P cfg item = Except.ok b) :
    rowNaiveDT P cfg item = Except.ok { b.datetime with tz := none } ∧
    b.datetime.tz = some cfg.tz_name := by
  unfold parseRow at h
  cases hdt : rowNaiveDT P cfg item with
  | error e => rw [hdt] at h; cases h
  | ok dtn =>
    rw [hdt] at h
    dsimp only at h
    unfold localizeE localize at h
    cases htz : dtn.tz with
    | some z =>
      rw [htz] at h
      dsimp only at h
      cases h
    | none =>
      rw [htz] at h
      dsimp only at h
      cases hf : rowFloats P cfg item with
      | error e => rw [hf] at h; cases h
      | ok fs =>
        rw [hf] at h
        dsimp only at h
        cases h
        refine ⟨?_, rfl⟩
        cases dtn with
        | mk y mo d hh mi s us tz =>
          have htz2 : tz = none := htz
          subst htz2
          rfl

/-- Witness for claim C8 at the concrete first sample row: the parsed
naive 2024-01-02 03:04:05 keeps its wall-clock fields and only gains the
Asia/Shanghai zone. -/
theorem parseRow_wall_clock_localization_witness :
    rowNaiveDT P0 cfg0 row1 = Except.ok { bar1.datetime with tz := none } ∧
    bar1.datetime.tz = some cfg0.tz_name :=
  parseRow_wall_clock_localization P0 cfg0 row1 bar1 (by rfl)

end DataManager
